import Mathlib

/-!
Verification of the paginated-query and analytics layer of the taxi-trip
service (`src/routers/taxi.py`, `src/services/taxi_service.py`,
`src/models/taxi.py`), embedded shallowly in Lean.

The database table of trips is modelled as the snapshot list a query with
`ORDER BY id` would observe: a list of rows, with the primary-key invariant
(ids strictly increasing along the list) carried as the hypothesis
`IdSorted`.  Timestamps are modelled as integer epoch seconds, Python
integers as `Int`, SQL `NULL`-able results as `Option`.
-/

/-- A row of the trip table, projected to the four columns every
query of the service selects (`TaxiTripRead` in `src/models/taxi.py`). -/
structure TaxiTrip where
  id : Int
  vendor_id : String
  pickup_datetime : Int
  dropoff_datetime : Int
  deriving DecidableEq, Repr

/-- The dataset snapshot is ordered by the primary key `id`, strictly
ascending (ids are unique). -/
abbrev IdSorted (db : List TaxiTrip) : Prop :=
  db.Pairwise (fun a b => a.id < b.id)

/-- Pagination metadata of the page-based endpoint
(`PaginationInfo` in `src/models/taxi.py`), plus `countQueries`, the
number of `COUNT` queries the request issued against the store. -/
structure PageResult where
  trips : List TaxiTrip
  page : Nat
  page_size : Nat
  total_pages : Int
  total_count : Int
  has_next : Bool
  has_previous : Bool
  next_cursor : Option Int
  previous_cursor : Option Int
  countQueries : Nat
  deriving DecidableEq, Repr

/-- `total_pages = (total_count + page_size - 1) // page_size` from
`get_trips_by_page` (src/routers/taxi.py line 138); Python `//` on these
non-negative operands agrees with `Int` division. -/
def totalPagesOf (total_count : Int) (page_size : Int) : Int :=
  (total_count + page_size - 1) / page_size

/-- `get_trips_by_page` (src/routers/taxi.py lines 111-187).
`db` is the id-ordered table snapshot; `OFFSET`/`LIMIT` become
`drop`/`take`.  The `previous_cursor` field reproduces the Python
truthiness test `max(0, previous_cursor) if previous_cursor else None`:
a computed value of `0` (like `None`) is falsy and yields `none`. -/
def get_trips_by_page (db : List TaxiTrip) (page : Nat) (page_size : Nat)
    (include_count : Bool) : PageResult :=
  let total_count : Int := if include_count then (db.length : Int) else -1
  let total_pages : Int :=
    if include_count then totalPagesOf (db.length : Int) (page_size : Int) else -1
  let offset := (page - 1) * page_size
  let all_trips := (db.drop offset).take (page_size + 1)
  let has_next : Bool := decide (page_size < all_trips.length)
  let trips := all_trips.take page_size
  let has_previous : Bool := decide (1 < page)
  let next_cursor : Option Int :=
    match trips.getLast? with
    | some t => if has_next then some t.id else none
    | none => none
  let previous_cursor_raw : Option Int :=
    match trips.head? with
    | some t => if has_previous then some (t.id - (page_size : Int)) else none
    | none => none
  let previous_cursor : Option Int :=
    match previous_cursor_raw with
    | some v => if v = 0 then none else some (max 0 v)
    | none => none
  { trips := trips
    page := page
    page_size := page_size
    total_pages := total_pages
    total_count := total_count
    has_next := has_next
    has_previous := has_previous
    next_cursor := next_cursor
    previous_cursor := previous_cursor
    countQueries := if include_count then 1 else 0 }

example :
    (get_trips_by_page
      [⟨1, "A", 0, 60⟩, ⟨2, "B", 0, 60⟩, ⟨3, "A", 0, 60⟩] 2 1 true).trips
      = [⟨2, "B", 0, 60⟩] := by decide

example :
    (get_trips_by_page
      [⟨1, "A", 0, 60⟩] 2 1 false).previous_cursor = none := by decide

example :
    (get_trips_by_page
      [⟨1, "A", 0, 60⟩] 2 1 false).has_previous = true := by decide

/-- Pagination metadata of the cursor-based endpoint
(`CursorPaginationInfo` in `src/models/taxi.py`). -/
structure CursorResult where
  trips : List TaxiTrip
  page_size : Nat
  has_next : Bool
  has_previous : Bool
  next_cursor : Option Int
  previous_cursor : Option Int
  deriving DecidableEq, Repr

/-- `get_trips_by_cursor` (src/routers/taxi.py lines 199-263).
`WHERE id > cursor ORDER BY id LIMIT page_size + 1` becomes a filter of
the id-ordered snapshot followed by `take (page_size + 1)`. -/
def get_trips_by_cursor (db : List TaxiTrip) (cursor : Int) (page_size : Nat) :
    CursorResult :=
  let all_trips := (db.filter (fun r => cursor < r.id)).take (page_size + 1)
  let has_next : Bool := decide (page_size < all_trips.length)
  let trips := all_trips.take page_size
  let has_previous : Bool := decide (0 < cursor)
  let next_cursor : Option Int :=
    match trips.getLast? with
    | some t => if has_next then some t.id else none
    | none => none
  let previous_cursor : Option Int :=
    if has_previous then some (max 0 (cursor - (page_size : Int))) else none
  { trips := trips
    page_size := page_size
    has_next := has_next
    has_previous := has_previous
    next_cursor := next_cursor
    previous_cursor := previous_cursor }

/-- Chained cursor iteration: start at a cursor, and while the response
reports `has_next`, feed its `next_cursor` into the next call,
accumulating the returned rows.  `fuel` bounds the recursion; any
`fuel ≥ db.length` is enough (shown in the continuity theorem). -/
def cursorChain : Nat → List TaxiTrip → Int → Nat → List TaxiTrip
  | 0, _, _, _ => []
  | fuel + 1, db, cursor, page_size =>
    let resp := get_trips_by_cursor db cursor page_size
    if resp.has_next then
      match resp.next_cursor with
      | some nc => resp.trips ++ cursorChain fuel db nc page_size
      | none => resp.trips
    else resp.trips

/-- Trip duration in minutes, `EXTRACT(epoch FROM dropoff - pickup) / 60`
(src/services/taxi_service.py lines 48-56), with timestamps in epoch
seconds. -/
def tripDurationMinutes (r : TaxiTrip) : ℚ :=
  ((r.dropoff_datetime : ℚ) - (r.pickup_datetime : ℚ)) / 60

/-- Python `round(x, 2)` modelled as rounding `100 x` to the nearest
integer, half upward (`⌊100 x + 1/2⌋`); the source's tie behaviour on
floats is not load-bearing for any claim. -/
def round2 (x : ℚ) : ℚ := ((Rat.floor (x * 100 + 1 / 2) : Int) : ℚ) / 100

/-- The rows the `WHERE dropoff > pickup` clause of the average-duration
query keeps (src/services/taxi_service.py line 55). -/
def qualifyingTrips (db : List TaxiTrip) : List TaxiTrip :=
  db.filter (fun r => r.pickup_datetime < r.dropoff_datetime)

/-- `_calculate_avg_duration` (src/services/taxi_service.py lines 45-59):
SQL `AVG` over the qualifying rows, `NULL` (modelled by the empty
average being replaced by `0` as Python's `avg_minutes or 0.0` does)
when no row qualifies, then `round(_, 2)`. -/
def calculate_avg_duration (db : List TaxiTrip) : ℚ :=
  let q := qualifyingTrips db
  round2 (if q.length = 0 then 0 else (q.map tripDurationMinutes).sum / (q.length : ℚ))

/-- `EXTRACT(hour FROM pickup_datetime)` for an epoch-seconds timestamp:
the hour of day, in `[0, 23]`. -/
def hourOf (t : Int) : Int := (t / 3600) % 24

/-- Number of trips whose pickup falls in hour `h`
(the `GROUP BY`/`COUNT` of `_find_peak_hour`). -/
def hourCount (db : List TaxiTrip) (h : Int) : Nat :=
  (db.filter (fun r => hourOf r.pickup_datetime = h)).length

/-- `_find_peak_hour` (src/services/taxi_service.py lines 61-77):
`ORDER BY COUNT(*) DESC LIMIT 1` over the hour groups, `(0, 0)` when the
table is empty.  The SQL leaves the tie-break between equally frequent
hours to the store; the model resolves ties toward the lower hour, and
the theorems proved about it are tie-break independent. -/
def find_peak_hour (db : List TaxiTrip) : Int × Nat :=
  if db.isEmpty then (0, 0)
  else
    ((List.range 24).map (fun (h : Nat) => ((h : Int), hourCount db (h : Int)))).foldl
      (fun best cur => if best.2 < cur.2 then cur else best) (0, hourCount db 0)

/-- Result record of the vendor update
(`VendorUpdateResponse` in `src/models/taxi.py`). -/
structure VendorUpdateResponse where
  id : Int
  vendor_id : String
  message : String
  deriving DecidableEq, Repr

/-- `update_vendor_id` (src/services/taxi_service.py lines 91-121):
look the trip up first; absent ids raise `ValueError` (modelled as
`Except.error` carrying the message) before any write, so the state
component stays `db`; present ids get a single `UPDATE ... SET
vendor_id` plus commit, modelled by the returned state being the
updated snapshot. -/
def update_vendor_id (trip_id : Int) (new_vendor_id : String)
    (db : List TaxiTrip) : List TaxiTrip × Except String VendorUpdateResponse :=
  match db.find? (fun r => r.id == trip_id) with
  | none => (db, Except.error ("Trip with ID " ++ toString trip_id ++ " not found"))
  | some _ =>
    (db.map (fun r => if r.id == trip_id then { r with vendor_id := new_vendor_id } else r),
     Except.ok
       { id := trip_id
         vendor_id := new_vendor_id
         message := "Vendor ID updated successfully in writable table" })

example :
    (get_trips_by_cursor
      [⟨1, "A", 0, 60⟩, ⟨2, "B", 0, 60⟩, ⟨3, "A", 0, 60⟩] 1 1).trips
      = [⟨2, "B", 0, 60⟩] := by decide

example :
    cursorChain 3 [⟨1, "A", 0, 60⟩, ⟨2, "B", 0, 60⟩, ⟨3, "A", 0, 60⟩] 0 2
      = [⟨1, "A", 0, 60⟩, ⟨2, "B", 0, 60⟩, ⟨3, "A", 0, 60⟩] := by decide

example :
    calculate_avg_duration [⟨1, "A", 0, 60⟩, ⟨2, "B", 100, 40⟩] = 1 := by
  norm_num [calculate_avg_duration, qualifyingTrips, tripDurationMinutes,
    round2, Rat.floor_def', List.filter]

example : calculate_avg_duration [⟨2, "B", 100, 40⟩] = 0 := by
  norm_num [calculate_avg_duration, qualifyingTrips, tripDurationMinutes,
    round2, Rat.floor_def', List.filter]

example : find_peak_hour [] = (0, 0) := by decide

example :
    find_peak_hour [⟨1, "A", 3700, 60⟩, ⟨2, "B", 3800, 60⟩, ⟨3, "A", 60, 60⟩]
      = (1, 2) := by decide

example :
    (update_vendor_id 2 "Z" [⟨1, "A", 0, 60⟩, ⟨2, "B", 0, 60⟩]).1
      = [⟨1, "A", 0, 60⟩, ⟨2, "Z", 0, 60⟩] := by decide

/-! ## Projection lemmas for the two pagination endpoints -/

lemma page_trips_eq (db : List TaxiTrip) (page p : Nat) (ic : Bool) :
    (get_trips_by_page db page p ic).trips = (db.drop ((page - 1) * p)).take p := by
  simp only [get_trips_by_page]
  rw [List.take_take]
  congr 1
  omega

lemma page_has_next_iff (db : List TaxiTrip) (page p : Nat) (ic : Bool) :
    (get_trips_by_page db page p ic).has_next = true
      ↔ p < ((db.drop ((page - 1) * p)).take (p + 1)).length := by
  simp [get_trips_by_page]

lemma page_has_previous_iff (db : List TaxiTrip) (page p : Nat) (ic : Bool) :
    (get_trips_by_page db page p ic).has_previous = true ↔ 1 < page := by
  simp [get_trips_by_page]

lemma cursor_trips_eq (db : List TaxiTrip) (c : Int) (p : Nat) :
    (get_trips_by_cursor db c p).trips
      = (db.filter (fun r => decide (c < r.id))).take p := by
  simp only [get_trips_by_cursor]
  rw [List.take_take]
  congr 1
  omega

lemma cursor_has_next_iff (db : List TaxiTrip) (c : Int) (p : Nat) :
    (get_trips_by_cursor db c p).has_next = true
      ↔ p < (db.filter (fun r => decide (c < r.id))).length := by
  simp [get_trips_by_cursor, List.length_take]

/-! ## C4: the count query and the -1 sentinel -/

/-- Claim C4: with `include_count = false`, `get_trips_by_page` issues no
count query and reports `total_count = -1`, `total_pages = -1`; with
`include_count = true` (and a valid `page_size`), the `-1` sentinel is
never produced. -/
theorem C4_count_sentinel (db : List TaxiTrip) (page p : Nat) (hp : 1 ≤ p) :
    (get_trips_by_page db page p false).countQueries = 0 ∧
    (get_trips_by_page db page p false).total_count = -1 ∧
    (get_trips_by_page db page p false).total_pages = -1 ∧
    (get_trips_by_page db page p true).countQueries = 1 ∧
    (get_trips_by_page db page p true).total_count ≠ -1 ∧
    (get_trips_by_page db page p true).total_pages ≠ -1 := by
  refine ⟨rfl, rfl, rfl, rfl, ?_, ?_⟩
  · intro hcontra
    have h2 : (get_trips_by_page db page p true).total_count = (db.length : Int) := rfl
    rw [h2] at hcontra
    omega
  · intro hcontra
    have h2 : (get_trips_by_page db page p true).total_pages
        = totalPagesOf (db.length : Int) (p : Int) := rfl
    rw [h2, totalPagesOf] at hcontra
    have h1 : (0 : Int) ≤ ((db.length : Int) + (p : Int) - 1) / (p : Int) :=
      Int.ediv_nonneg (by omega) (by omega)
    omega

/-- Witness for C4 at a concrete dataset and page. -/
theorem C4_witness :
    (get_trips_by_page [⟨1, "A", 0, 60⟩] 1 2 false).countQueries = 0 ∧
    (get_trips_by_page [⟨1, "A", 0, 60⟩] 1 2 false).total_count = -1 ∧
    (get_trips_by_page [⟨1, "A", 0, 60⟩] 1 2 false).total_pages = -1 ∧
    (get_trips_by_page [⟨1, "A", 0, 60⟩] 1 2 true).countQueries = 1 ∧
    (get_trips_by_page [⟨1, "A", 0, 60⟩] 1 2 true).total_count ≠ -1 ∧
    (get_trips_by_page [⟨1, "A", 0, 60⟩] 1 2 true).total_pages ≠ -1 :=
  C4_count_sentinel [⟨1, "A", 0, 60⟩] 1 2 (by decide)

/-! ## C5: total_pages is a ceiling division -/

lemma totalPagesOf_eq_ceil (t p : Int) (ht : 0 ≤ t) (hp : 1 ≤ p) :
    totalPagesOf t p = ⌈(t : ℚ) / (p : ℚ)⌉ := by
  have hp0 : (0 : Int) < p := by omega
  set n : Int := (t + p - 1) / p with hn
  have hdm : p * n + (t + p - 1) % p = t + p - 1 := Int.ediv_add_emod _ _
  have hr0 : 0 ≤ (t + p - 1) % p := Int.emod_nonneg _ (by omega)
  have hrp : (t + p - 1) % p < p := Int.emod_lt_of_pos _ hp0
  have hpq : (0 : ℚ) < (p : ℚ) := by exact_mod_cast hp0
  have hdmQ : (p : ℚ) * (n : ℚ) + (((t + p - 1) % p : Int) : ℚ)
      = (t : ℚ) + (p : ℚ) - 1 := by exact_mod_cast hdm
  have hr0Q : (0 : ℚ) ≤ (((t + p - 1) % p : Int) : ℚ) := by exact_mod_cast hr0
  have hrpQ : (((t + p - 1) % p : Int) : ℚ) ≤ (p : ℚ) - 1 := by
    have : (t + p - 1) % p ≤ p - 1 := by omega
    exact_mod_cast this
  have : ⌈(t : ℚ) / (p : ℚ)⌉ = n := by
    rw [Int.ceil_eq_iff]
    constructor
    · rw [lt_div_iff₀ hpq]
      nlinarith
    · rw [div_le_iff₀ hpq]
      nlinarith
  rw [totalPagesOf, this]

/-- Claim C5: with `include_count = true`, the reported `total_pages`,
computed as `(total_count + page_size - 1) // page_size`, equals
`⌈total_count / page_size⌉`. -/
theorem C5_total_pages_ceil (db : List TaxiTrip) (page p : Nat) (hp : 1 ≤ p) :
    (get_trips_by_page db page p true).total_pages
      = ⌈(db.length : ℚ) / (p : ℚ)⌉ := by
  have h : (get_trips_by_page db page p true).total_pages
      = totalPagesOf (db.length : Int) (p : Int) := rfl
  rw [h, totalPagesOf_eq_ceil _ _ (by omega) (by exact_mod_cast hp)]
  norm_num

/-! ## C3: cursor continuity -/

lemma le_id_getLast? :
    ∀ (l : List TaxiTrip), l.Pairwise (fun a b => a.id < b.id) →
      ∀ (b : TaxiTrip), l.getLast? = some b → ∀ x ∈ l, x.id ≤ b.id
  | [], _, b, hb => by simp at hb
  | a :: t, hp, b, hb => by
    intro x hx
    cases t with
    | nil =>
      simp only [List.getLast?_singleton, Option.some.injEq] at hb
      simp only [List.mem_singleton] at hx
      simp_all
    | cons c t2 =>
      have hb2 : (c :: t2).getLast? = some b := hb
      rcases List.mem_cons.mp hx with rfl | hxt
      · have hbm : b ∈ c :: t2 := List.mem_of_mem_getLast? hb2
        exact le_of_lt ((List.pairwise_cons.mp hp).1 b hbm)
      · exact le_id_getLast? (c :: t2) (List.pairwise_cons.mp hp).2 b hb2 x hxt

lemma filter_within_sorted (m : List TaxiTrip) (p : Nat)
    (hp : m.Pairwise (fun a b => a.id < b.id)) (b : TaxiTrip)
    (hb : (m.take p).getLast? = some b) :
    m.filter (fun r => decide (b.id < r.id)) = m.drop p := by
  have hsplit : m.take p ++ m.drop p = m := List.take_append_drop p m
  have hpair : (m.take p ++ m.drop p).Pairwise (fun a b => a.id < b.id) := by
    rw [hsplit]
    exact hp
  obtain ⟨hp1, _, hcross⟩ := List.pairwise_append.mp hpair
  have hbmem : b ∈ m.take p := List.mem_of_mem_getLast? hb
  have h1 : (m.take p).filter (fun r => decide (b.id < r.id)) = [] := by
    rw [List.filter_eq_nil_iff]
    intro a ha
    have := le_id_getLast? (m.take p) hp1 b hb a ha
    simp only [decide_eq_true_eq]
    omega
  have h2 : (m.drop p).filter (fun r => decide (b.id < r.id)) = m.drop p := by
    rw [List.filter_eq_self]
    intro a ha
    have := hcross b hbmem a ha
    simp only [decide_eq_true_eq]
    omega
  calc m.filter (fun r => decide (b.id < r.id))
      = (m.take p ++ m.drop p).filter (fun r => decide (b.id < r.id)) := by rw [hsplit]
    _ = (m.take p).filter (fun r => decide (b.id < r.id))
          ++ (m.drop p).filter (fun r => decide (b.id < r.id)) := List.filter_append _ _
    _ = m.drop p := by rw [h1, h2, List.nil_append]

lemma filter_trans_gt (db : List TaxiTrip) (c : Int) (b : TaxiTrip) (hcb : c < b.id) :
    (db.filter (fun r => decide (c < r.id))).filter (fun r => decide (b.id < r.id))
      = db.filter (fun r => decide (b.id < r.id)) := by
  rw [List.filter_filter]
  apply List.filter_congr
  intro a _
  by_cases h : b.id < a.id
  · have h2 : c < a.id := lt_trans hcb h
    simp [h, h2]
  · simp [h]

lemma cursor_next_cursor_eq (db : List TaxiTrip) (c : Int) (p : Nat)
    (hlen : p < (db.filter (fun r => decide (c < r.id))).length) (b : TaxiTrip)
    (hb : ((db.filter (fun r => decide (c < r.id))).take p).getLast? = some b) :
    (get_trips_by_cursor db c p).next_cursor = some b.id := by
  simp only [get_trips_by_cursor]
  have htt : ((db.filter (fun r => decide (c < r.id))).take (p + 1)).take p
      = (db.filter (fun r => decide (c < r.id))).take p := by
    rw [List.take_take]
    congr 1
    omega
  rw [htt, hb]
  have hcond : decide
      (p < ((db.filter (fun r => decide (c < r.id))).take (p + 1)).length) = true := by
    simp only [decide_eq_true_eq, List.length_take]
    omega
  rw [hcond]
  simp

lemma cursorChain_eq_filter (db : List TaxiTrip) (hs : IdSorted db) (p : Nat)
    (hp : 1 ≤ p) :
    ∀ (fuel : Nat) (c : Int),
      (db.filter (fun r => decide (c < r.id))).length ≤ fuel →
      cursorChain fuel db c p = db.filter (fun r => decide (c < r.id)) := by
  intro fuel
  induction fuel with
  | zero =>
    intro c hc
    have h0 : db.filter (fun r => decide (c < r.id)) = [] :=
      List.eq_nil_of_length_eq_zero (Nat.le_zero.mp hc)
    rw [h0]
    rfl
  | succ fuel ih =>
    intro c hc
    by_cases hlen : (db.filter (fun r => decide (c < r.id))).length ≤ p
    · have hnext : (get_trips_by_cursor db c p).has_next = false := by
        cases hb : (get_trips_by_cursor db c p).has_next
        · rfl
        · exact absurd ((cursor_has_next_iff db c p).mp hb) (by omega)
      simp only [cursorChain]
      rw [hnext]
      simp only [Bool.false_eq_true, if_false]
      rw [cursor_trips_eq]
      exact List.take_of_length_le hlen
    · push_neg at hlen
      have hnext : (get_trips_by_cursor db c p).has_next = true :=
        (cursor_has_next_iff db c p).mpr hlen
      have htrips : (get_trips_by_cursor db c p).trips
          = (db.filter (fun r => decide (c < r.id))).take p := cursor_trips_eq db c p
      have hlentake : ((db.filter (fun r => decide (c < r.id))).take p).length = p := by
        rw [List.length_take]
        omega
      obtain ⟨b, hb⟩ :
          ∃ b, ((db.filter (fun r => decide (c < r.id))).take p).getLast? = some b := by
        cases hgl : ((db.filter (fun r => decide (c < r.id))).take p).getLast? with
        | none =>
          have hnil := List.getLast?_eq_none_iff.mp hgl
          rw [hnil] at hlentake
          simp at hlentake
          omega
        | some b => exact ⟨b, rfl⟩
      have hnc : (get_trips_by_cursor db c p).next_cursor = some b.id :=
        cursor_next_cursor_eq db c p hlen b hb
      have hbm : b ∈ db.filter (fun r => decide (c < r.id)) :=
        List.mem_of_mem_take (List.mem_of_mem_getLast? hb)
      have hcb : c < b.id := by
        have h1 := List.of_mem_filter hbm
        simpa using h1
      have hdrop : db.filter (fun r => decide (b.id < r.id))
          = (db.filter (fun r => decide (c < r.id))).drop p := by
        rw [← filter_trans_gt db c b hcb]
        exact filter_within_sorted _ p (hs.filter _) b hb
      have hlendrop : (db.filter (fun r => decide (b.id < r.id))).length ≤ fuel := by
        rw [hdrop, List.length_drop]
        omega
      have hrec := ih b.id hlendrop
      simp only [cursorChain]
      rw [hnext]
      simp only [if_true]
      rw [hnc, htrips]
      show (db.filter (fun r => decide (c < r.id))).take p ++ cursorChain fuel db b.id p
          = db.filter (fun r => decide (c < r.id))
      rw [hrec, hdrop, List.take_append_drop]

/-- Claim C3: chaining cursor calls from cursor 0 with a fixed page size,
feeding each `next_cursor` into the next call and stopping at the first
response with `has_next = false`, yields exactly the rows with `id > 0`
of the id-ordered dataset — each visited once, in ascending id order. -/
theorem C3_cursor_continuity (db : List TaxiTrip) (p fuel : Nat)
    (hs : IdSorted db) (hp : 1 ≤ p) (hfuel : db.length ≤ fuel) :
    cursorChain fuel db 0 p = db.filter (fun r => decide (0 < r.id)) ∧
    (cursorChain fuel db 0 p).Pairwise (fun a b => a.id < b.id) ∧
    ∀ t, t ∈ cursorChain fuel db 0 p ↔ t ∈ db ∧ 0 < t.id := by
  have hmain : cursorChain fuel db 0 p = db.filter (fun r => decide (0 < r.id)) :=
    cursorChain_eq_filter db hs p hp fuel 0
      (le_trans (List.length_filter_le _ _) hfuel)
  refine ⟨hmain, ?_, ?_⟩
  · rw [hmain]
    exact hs.filter _
  · intro t
    rw [hmain]
    simp [List.mem_filter]

/-- Witness for C3: chaining with page size 2 over three rows. -/
theorem C3_witness :
    cursorChain 3 [⟨1, "A", 0, 60⟩, ⟨2, "B", 0, 60⟩, ⟨3, "A", 0, 60⟩] 0 2
      = ([⟨1, "A", 0, 60⟩, ⟨2, "B", 0, 60⟩, ⟨3, "A", 0, 60⟩] :
          List TaxiTrip).filter (fun r => decide (0 < r.id)) ∧
    (cursorChain 3 [⟨1, "A", 0, 60⟩, ⟨2, "B", 0, 60⟩, ⟨3, "A", 0, 60⟩] 0 2).Pairwise
        (fun a b => a.id < b.id) ∧
    ∀ t, t ∈ cursorChain 3 [⟨1, "A", 0, 60⟩, ⟨2, "B", 0, 60⟩, ⟨3, "A", 0, 60⟩] 0 2
      ↔ t ∈ ([⟨1, "A", 0, 60⟩, ⟨2, "B", 0, 60⟩, ⟨3, "A", 0, 60⟩] : List TaxiTrip)
          ∧ 0 < t.id :=
  C3_cursor_continuity [⟨1, "A", 0, 60⟩, ⟨2, "B", 0, 60⟩, ⟨3, "A", 0, 60⟩] 2 3
    (by decide) (by decide) (by decide)

/-! ## C6: the average-duration metric -/

/-- Claim C6: the average-duration metric averages
`(dropoff - pickup) / 60` minutes over exactly the trips with
`dropoff_time > pickup_time` (non-positive durations are excluded, not
counted as zero), rounds to 2 decimal places, and is exactly `0` when no
trip qualifies. -/
theorem C6_avg_duration (db : List TaxiTrip) :
    (qualifyingTrips db = [] → calculate_avg_duration db = 0) ∧
    (qualifyingTrips db ≠ [] →
      calculate_avg_duration db
        = round2 (((qualifyingTrips db).map tripDurationMinutes).sum
            / ((qualifyingTrips db).length : ℚ))) := by
  constructor
  · intro h
    simp [calculate_avg_duration, h, round2]
    norm_num [Rat.floor_def']
  · intro h
    have hlen : (qualifyingTrips db).length ≠ 0 := by
      simpa [List.length_eq_zero] using h
    simp [calculate_avg_duration, hlen]

/-- Witness for C6: a dataset with no qualifying trip averages to `0`,
and a dataset with qualifying trips averages to the rounded mean of the
qualifying durations. -/
theorem C6_witness :
    calculate_avg_duration [⟨2, "B", 100, 40⟩] = 0 ∧
    calculate_avg_duration [⟨1, "A", 0, 60⟩, ⟨2, "B", 100, 40⟩]
      = round2 (((qualifyingTrips [⟨1, "A", 0, 60⟩, ⟨2, "B", 100, 40⟩]).map
          tripDurationMinutes).sum
            / ((qualifyingTrips [⟨1, "A", 0, 60⟩, ⟨2, "B", 100, 40⟩]).length : ℚ)) :=
  ⟨(C6_avg_duration [⟨2, "B", 100, 40⟩]).1 (by decide),
   (C6_avg_duration [⟨1, "A", 0, 60⟩, ⟨2, "B", 100, 40⟩]).2 (by decide)⟩

/-! ## C9: the peak-hour metric -/

lemma foldl_max_ge_init (l : List (Int × Nat)) (init : Int × Nat) :
    init.2 ≤ (l.foldl (fun best cur => if best.2 < cur.2 then cur else best) init).2 := by
  induction l generalizing init with
  | nil => exact le_refl _
  | cons a t ih =>
    simp only [List.foldl_cons]
    by_cases h : init.2 < a.2
    · rw [if_pos h]
      exact le_trans (le_of_lt h) (ih a)
    · rw [if_neg h]
      exact ih init

lemma foldl_max_ge_mem :
    ∀ (l : List (Int × Nat)) (init x : Int × Nat), x ∈ l →
      x.2 ≤ (l.foldl (fun best cur => if best.2 < cur.2 then cur else best) init).2
  | [], _, _, hx => absurd hx (List.not_mem_nil _)
  | a :: t, init, x, hx => by
    rcases List.mem_cons.mp hx with rfl | hxt
    · simp only [List.foldl_cons]
      by_cases h : init.2 < x.2
      · rw [if_pos h]
        exact foldl_max_ge_init t x
      · rw [if_neg h]
        exact le_trans (Nat.le_of_not_lt h) (foldl_max_ge_init t init)
    · simp only [List.foldl_cons]
      exact foldl_max_ge_mem t _ x hxt

lemma foldl_max_mem :
    ∀ (l : List (Int × Nat)) (init : Int × Nat),
      l.foldl (fun best cur => if best.2 < cur.2 then cur else best) init = init ∨
      l.foldl (fun best cur => if best.2 < cur.2 then cur else best) init ∈ l
  | [], _ => Or.inl rfl
  | a :: t, init => by
    simp only [List.foldl_cons]
    by_cases h : init.2 < a.2
    · rw [if_pos h]
      rcases foldl_max_mem t a with heq | hmem
      · exact Or.inr (by rw [heq]; exact List.mem_cons_self a t)
      · exact Or.inr (List.mem_cons_of_mem a hmem)
    · rw [if_neg h]
      rcases foldl_max_mem t init with heq | hmem
      · exact Or.inl heq
      · exact Or.inr (List.mem_cons_of_mem a hmem)

lemma hourOf_nonneg (t : Int) : 0 ≤ hourOf t := Int.emod_nonneg _ (by norm_num)

lemma hourOf_lt (t : Int) : hourOf t < 24 := Int.emod_lt_of_pos _ (by norm_num)

/-- Claim C9: the peak-hour metric returns an hour of day whose trip
count (grouping pickups by hour) is maximal, together with that maximal
count; on an empty dataset it returns `(0, 0)`. -/
theorem C9_peak_hour (db : List TaxiTrip) :
    (db = [] → find_peak_hour db = (0, 0)) ∧
    (db ≠ [] →
      hourCount db (find_peak_hour db).1 = (find_peak_hour db).2 ∧
      ∀ h : Int, hourCount db h ≤ (find_peak_hour db).2) := by
  constructor
  · intro h
    simp [find_peak_hour, h]
  · intro h
    have hne : db.isEmpty = false := by
      simpa [List.isEmpty_iff] using h
    have hres : find_peak_hour db
        = ((List.range 24).map (fun (h : Nat) => ((h : Int), hourCount db (h : Int)))).foldl
            (fun best cur => if best.2 < cur.2 then cur else best)
            (0, hourCount db 0) := by
      simp [find_peak_hour, hne]
    constructor
    · rcases foldl_max_mem
        ((List.range 24).map (fun (h : Nat) => ((h : Int), hourCount db (h : Int))))
        (0, hourCount db 0) with heq | hmem
      · rw [hres, heq]
      · obtain ⟨a, _, heq⟩ := List.mem_map.mp hmem
        rw [hres, ← heq]
    · intro hh
      by_cases hrange : 0 ≤ hh ∧ hh < 24
      · have hmem : ((hh, hourCount db hh) : Int × Nat)
            ∈ (List.range 24).map (fun (h : Nat) => ((h : Int), hourCount db (h : Int))) := by
          have htn : hh.toNat < 24 := by omega
          have hm : (((hh.toNat : Nat) : Int), hourCount db ((hh.toNat : Nat) : Int))
              ∈ (List.range 24).map (fun (n : Nat) => ((n : Int), hourCount db (n : Int))) :=
            List.mem_map.2 ⟨hh.toNat, List.mem_range.mpr htn, rfl⟩
          simpa [Int.toNat_of_nonneg hrange.1] using hm
        rw [hres]
        exact foldl_max_ge_mem _ (0, hourCount db 0) (hh, hourCount db hh) hmem
      · have h0 : hourCount db hh = 0 := by
          rw [hourCount, List.length_eq_zero, List.filter_eq_nil_iff]
          intro a _
          have h1 := hourOf_nonneg a.pickup_datetime
          have h2 := hourOf_lt a.pickup_datetime
          simp only [decide_eq_true_eq]
          omega
        rw [h0]
        exact Nat.zero_le _

/-- Witness for C9 on a concrete non-empty dataset. -/
theorem C9_witness :
    hourCount [⟨1, "A", 3700, 60⟩, ⟨2, "B", 3800, 60⟩, ⟨3, "A", 60, 60⟩]
        (find_peak_hour [⟨1, "A", 3700, 60⟩, ⟨2, "B", 3800, 60⟩, ⟨3, "A", 60, 60⟩]).1
      = (find_peak_hour [⟨1, "A", 3700, 60⟩, ⟨2, "B", 3800, 60⟩, ⟨3, "A", 60, 60⟩]).2 ∧
    ∀ h : Int,
      hourCount [⟨1, "A", 3700, 60⟩, ⟨2, "B", 3800, 60⟩, ⟨3, "A", 60, 60⟩] h
        ≤ (find_peak_hour [⟨1, "A", 3700, 60⟩, ⟨2, "B", 3800, 60⟩, ⟨3, "A", 60, 60⟩]).2 :=
  (C9_peak_hour [⟨1, "A", 3700, 60⟩, ⟨2, "B", 3800, 60⟩, ⟨3, "A", 60, 60⟩]).2 (by decide)

/-! ## C7: the vendor update and its not-found path -/

lemma find?_map_update (tid : Int) (v : String) :
    ∀ (db : List TaxiTrip) (t0 : TaxiTrip),
      db.find? (fun r => r.id == tid) = some t0 →
      (db.map (fun r => if r.id == tid then { r with vendor_id := v } else r)).find?
          (fun r => r.id == tid)
        = some { t0 with vendor_id := v }
  | [], _, hfind => by simp at hfind
  | a :: t, t0, hfind => by
    by_cases h : a.id = tid
    · rw [List.find?_cons_of_pos _ (by simp [h])] at hfind
      cases hfind
      simp only [List.map_cons]
      rw [if_pos (by simp [h]), List.find?_cons_of_pos _ (by simp [h])]
    · rw [List.find?_cons_of_neg _ (by simp [h])] at hfind
      simp only [List.map_cons]
      rw [if_neg (by simp [h]), List.find?_cons_of_neg _ (by simp [h])]
      exact find?_map_update tid v t t0 hfind

/-- Claim C7: updating the vendor of a non-existent trip id fails with a
not-found error carrying that id and leaves the store unchanged; on an
existing id the update succeeds and a subsequent read of that id
reflects the new `vendor_id`. -/
theorem C7_update_vendor (db : List TaxiTrip) (tid : Int) (v : String) :
    (db.find? (fun r => r.id == tid) = none →
      update_vendor_id tid v db
        = (db, Except.error ("Trip with ID " ++ toString tid ++ " not found"))) ∧
    (∀ t0, db.find? (fun r => r.id == tid) = some t0 →
      (update_vendor_id tid v db).2
          = Except.ok
              { id := tid
                vendor_id := v
                message := "Vendor ID updated successfully in writable table" } ∧
      ((update_vendor_id tid v db).1.find? (fun r => r.id == tid)).map
          (fun r => r.vendor_id) = some v) := by
  constructor
  · intro h
    simp [update_vendor_id, h]
  · intro t0 h
    refine ⟨by simp [update_vendor_id, h], ?_⟩
    have h1 : (update_vendor_id tid v db).1
        = db.map (fun r => if r.id == tid then { r with vendor_id := v } else r) := by
      simp [update_vendor_id, h]
    rw [h1, find?_map_update tid v db t0 h]
    rfl

/-- Witness for C7: the not-found path on a missing id, and a
read-after-write on a present id. -/
theorem C7_witness :
    (update_vendor_id 9 "Z" [⟨1, "A", 0, 60⟩]
      = ([⟨1, "A", 0, 60⟩],
         Except.error ("Trip with ID " ++ toString (9 : Int) ++ " not found"))) ∧
    ((update_vendor_id 1 "Z" [⟨1, "A", 0, 60⟩]).2
      = Except.ok
          { id := (1 : Int)
            vendor_id := "Z"
            message := "Vendor ID updated successfully in writable table" } ∧
     ((update_vendor_id 1 "Z" [⟨1, "A", 0, 60⟩]).1.find?
        (fun r => r.id == (1 : Int))).map (fun r => r.vendor_id) = some "Z") :=
  ⟨(C7_update_vendor [⟨1, "A", 0, 60⟩] 9 "Z").1 (by decide),
   (C7_update_vendor [⟨1, "A", 0, 60⟩] 1 "Z").2 ⟨1, "A", 0, 60⟩ (by decide)⟩

/-! ## C10: the vendor update touches nothing else -/

/-- Claim C10: a successful `update_vendor_id` changes only the
`vendor_id` of rows whose id equals `trip_id`: every position of the
dataset keeps its `id`, `pickup_datetime` and `dropoff_datetime`, and
every row with a different id is entirely unchanged. -/
theorem C10_update_frame (db : List TaxiTrip) (tid : Int) (v : String)
    (t0 : TaxiTrip) (hfound : db.find? (fun r => r.id == tid) = some t0) :
    (update_vendor_id tid v db).1.length = db.length ∧
    ∀ (i : Nat) (r : TaxiTrip), db[i]? = some r →
      ∃ r2, (update_vendor_id tid v db).1[i]? = some r2 ∧
        r2.id = r.id ∧ r2.pickup_datetime = r.pickup_datetime ∧
        r2.dropoff_datetime = r.dropoff_datetime ∧
        (r.id ≠ tid → r2 = r) := by
  have h1 : (update_vendor_id tid v db).1
      = db.map (fun r => if r.id == tid then { r with vendor_id := v } else r) := by
    simp [update_vendor_id, hfound]
  constructor
  · rw [h1, List.length_map]
  · intro i r hr
    rw [h1, List.getElem?_map, hr]
    by_cases h : r.id = tid
    · refine ⟨{ r with vendor_id := v }, ?_, rfl, rfl, rfl, ?_⟩
      · simp [h]
      · intro hcontra
        exact absurd h hcontra
    · refine ⟨r, ?_, rfl, rfl, rfl, fun _ => rfl⟩
      simp [h]

/-- Witness for C10 on a two-row dataset. -/
theorem C10_witness :
    (update_vendor_id 2 "Z" [⟨1, "A", 0, 60⟩, ⟨2, "B", 7, 8⟩]).1.length
      = ([⟨1, "A", 0, 60⟩, ⟨2, "B", 7, 8⟩] : List TaxiTrip).length ∧
    ∀ (i : Nat) (r : TaxiTrip),
      ([⟨1, "A", 0, 60⟩, ⟨2, "B", 7, 8⟩] : List TaxiTrip)[i]? = some r →
      ∃ r2, (update_vendor_id 2 "Z" [⟨1, "A", 0, 60⟩, ⟨2, "B", 7, 8⟩]).1[i]? = some r2 ∧
        r2.id = r.id ∧ r2.pickup_datetime = r.pickup_datetime ∧
        r2.dropoff_datetime = r.dropoff_datetime ∧
        (r.id ≠ 2 → r2 = r) :=
  C10_update_frame [⟨1, "A", 0, 60⟩, ⟨2, "B", 7, 8⟩] 2 "Z" ⟨2, "B", 7, 8⟩ (by decide)

/-! ## C1: presence and value of the page-mode previous_cursor -/

/-- Claim C1 as stated is false on the code: at page 2 of a one-row
dataset with `page_size = 1`, `has_previous` is true yet
`previous_cursor` is absent (the page is empty, so the Python
conditional `trips and has_previous` fails); and on ids `0..3` at page 2
with `page_size = 2`, `first_row.id - page_size = 0` is falsy in Python,
so `previous_cursor` is again absent despite `has_previous`. -/
theorem C1_counterexample :
    ((get_trips_by_page [⟨1, "A", 0, 60⟩] 2 1 false).has_previous = true ∧
     (get_trips_by_page [⟨1, "A", 0, 60⟩] 2 1 false).previous_cursor = none) ∧
    ((get_trips_by_page
        [⟨0, "A", 0, 60⟩, ⟨1, "A", 0, 60⟩, ⟨2, "A", 0, 60⟩, ⟨3, "A", 0, 60⟩]
        2 2 false).has_previous = true ∧
     (get_trips_by_page
        [⟨0, "A", 0, 60⟩, ⟨1, "A", 0, 60⟩, ⟨2, "A", 0, 60⟩, ⟨3, "A", 0, 60⟩]
        2 2 false).trips ≠ [] ∧
     (get_trips_by_page
        [⟨0, "A", 0, 60⟩, ⟨1, "A", 0, 60⟩, ⟨2, "A", 0, 60⟩, ⟨3, "A", 0, 60⟩]
        2 2 false).previous_cursor = none) := by
  decide

/-- Claim C1, amended: in page mode `previous_cursor` is present exactly
when `has_previous` holds, the returned page is non-empty, and
`first_row.id - page_size` is non-zero; when present its value is
`max 0 (first_row.id - page_size)`.  In particular a zero or negative
difference does not uniformly yield a present `0`: a negative difference
is clamped to a present `0`, while an exactly-zero difference (or an
empty page) makes the cursor absent. -/
theorem C1_previous_cursor_amended (db : List TaxiTrip) (page p : Nat) (ic : Bool) :
    ((get_trips_by_page db page p ic).previous_cursor ≠ none
      ↔ 1 < page ∧ ∃ t, (get_trips_by_page db page p ic).trips.head? = some t ∧
          t.id - (p : Int) ≠ 0) ∧
    (∀ t, (get_trips_by_page db page p ic).trips.head? = some t → 1 < page →
      t.id - (p : Int) ≠ 0 →
      (get_trips_by_page db page p ic).previous_cursor
        = some (max 0 (t.id - (p : Int)))) := by
  have hpc : (get_trips_by_page db page p ic).previous_cursor
      = (match (match (get_trips_by_page db page p ic).trips.head? with
          | some t => if decide (1 < page) then some (t.id - (p : Int)) else none
          | none => (none : Option Int)) with
        | some v => if v = 0 then none else some (max 0 v)
        | none => none) := by
    cases h : (get_trips_by_page db page p ic).trips.head? with
    | none =>
      simp only [get_trips_by_page] at h ⊢
      rw [h]
    | some t =>
      simp only [get_trips_by_page] at h ⊢
      rw [h]
  constructor
  · rw [hpc]
    cases h : (get_trips_by_page db page p ic).trips.head? with
    | none => simp
    | some t =>
      by_cases hpage : 1 < page
      · by_cases hz : t.id - (p : Int) = 0 <;> simp [hpage, hz]
      · simp [hpage]
  · intro t ht hpage hz
    rw [hpc, ht]
    simp [hpage, hz]

/-- Witness for the amended C1: page 2 of three rows with page size 1
has a present `previous_cursor` with the clamped value. -/
theorem C1_witness :
    (get_trips_by_page [⟨1, "A", 0, 60⟩, ⟨2, "B", 0, 60⟩, ⟨3, "A", 0, 60⟩]
        2 1 false).previous_cursor
      = some (max 0 ((2 : Int) - ((1 : Nat) : Int))) :=
  (C1_previous_cursor_amended [⟨1, "A", 0, 60⟩, ⟨2, "B", 0, 60⟩, ⟨3, "A", 0, 60⟩]
      2 1 false).2 ⟨2, "B", 0, 60⟩ (by decide) (by decide) (by decide)

/-! ## C8: the page-mode window -/

/-- Claim C8: `get_trips_by_page` returns at most `page_size` rows, the
slice of the id-ordered dataset starting at offset
`(page - 1) * page_size`, strictly ascending by id (hence no repeated
id); `has_next` holds exactly when the `page_size + 1` look-ahead fetch
returned more than `page_size` rows, and `has_previous` exactly when
`page > 1`. -/
theorem C8_page_window (db : List TaxiTrip) (page p : Nat) (ic : Bool)
    (hs : IdSorted db) (hpage : 1 ≤ page) (hp : 1 ≤ p) (hp2 : p ≤ 1000) :
    (get_trips_by_page db page p ic).trips = (db.drop ((page - 1) * p)).take p ∧
    (get_trips_by_page db page p ic).trips.length ≤ p ∧
    (get_trips_by_page db page p ic).trips.Pairwise (fun a b => a.id < b.id) ∧
    ((get_trips_by_page db page p ic).has_next = true
      ↔ p < ((db.drop ((page - 1) * p)).take (p + 1)).length) ∧
    ((get_trips_by_page db page p ic).has_previous = true ↔ 1 < page) := by
  refine ⟨page_trips_eq db page p ic, ?_, ?_,
    page_has_next_iff db page p ic, page_has_previous_iff db page p ic⟩
  · rw [page_trips_eq, List.length_take]
    omega
  · rw [page_trips_eq]
    exact hs.sublist
      ((List.take_sublist _ _).trans (List.drop_sublist _ _))

/-- Witness for C8 on a concrete sorted dataset. -/
theorem C8_witness :
    (get_trips_by_page
        [⟨1, "A", 0, 60⟩, ⟨2, "B", 0, 60⟩, ⟨3, "A", 0, 60⟩] 2 1 true).trips
      = (([⟨1, "A", 0, 60⟩, ⟨2, "B", 0, 60⟩, ⟨3, "A", 0, 60⟩] :
          List TaxiTrip).drop ((2 - 1) * 1)).take 1 ∧
    (get_trips_by_page
        [⟨1, "A", 0, 60⟩, ⟨2, "B", 0, 60⟩, ⟨3, "A", 0, 60⟩] 2 1 true).trips.length ≤ 1 ∧
    (get_trips_by_page
        [⟨1, "A", 0, 60⟩, ⟨2, "B", 0, 60⟩, ⟨3, "A", 0, 60⟩] 2 1 true).trips.Pairwise
          (fun a b => a.id < b.id) ∧
    ((get_trips_by_page
        [⟨1, "A", 0, 60⟩, ⟨2, "B", 0, 60⟩, ⟨3, "A", 0, 60⟩] 2 1 true).has_next = true
      ↔ 1 < ((([⟨1, "A", 0, 60⟩, ⟨2, "B", 0, 60⟩, ⟨3, "A", 0, 60⟩] :
          List TaxiTrip).drop ((2 - 1) * 1)).take (1 + 1)).length) ∧
    ((get_trips_by_page
        [⟨1, "A", 0, 60⟩, ⟨2, "B", 0, 60⟩, ⟨3, "A", 0, 60⟩] 2 1 true).has_previous = true
      ↔ 1 < 2) :=
  C8_page_window [⟨1, "A", 0, 60⟩, ⟨2, "B", 0, 60⟩, ⟨3, "A", 0, 60⟩] 2 1 true
    (by decide) (by decide) (by decide) (by decide)

/-! ## C2: the cursor-mode window -/

/-- Claim C2: `get_trips_by_cursor` returns only rows with `id > cursor`,
at most `page_size` rows, strictly ascending by id. -/
theorem C2_cursor_window (db : List TaxiTrip) (c : Int) (p : Nat)
    (hs : IdSorted db) (hc : 0 ≤ c) (hp : 1 ≤ p) (hp2 : p ≤ 1000) :
    (∀ t ∈ (get_trips_by_cursor db c p).trips, c < t.id) ∧
    (get_trips_by_cursor db c p).trips.length ≤ p ∧
    (get_trips_by_cursor db c p).trips.Pairwise (fun a b => a.id < b.id) := by
  refine ⟨?_, ?_, ?_⟩
  · intro t ht
    rw [cursor_trips_eq] at ht
    have hmem := List.mem_of_mem_take ht
    have := List.of_mem_filter hmem
    exact of_decide_eq_true this
  · rw [cursor_trips_eq, List.length_take]
    omega
  · rw [cursor_trips_eq]
    exact (hs.filter _).sublist (List.take_sublist _ _)

/-- Witness for C2 on a concrete sorted dataset. -/
theorem C2_witness :
    (∀ t ∈ (get_trips_by_cursor
        [⟨1, "A", 0, 60⟩, ⟨2, "B", 0, 60⟩, ⟨3, "A", 0, 60⟩] 1 2).trips, (1 : Int) < t.id) ∧
    (get_trips_by_cursor
        [⟨1, "A", 0, 60⟩, ⟨2, "B", 0, 60⟩, ⟨3, "A", 0, 60⟩] 1 2).trips.length ≤ 2 ∧
    (get_trips_by_cursor
        [⟨1, "A", 0, 60⟩, ⟨2, "B", 0, 60⟩, ⟨3, "A", 0, 60⟩] 1 2).trips.Pairwise
          (fun a b => a.id < b.id) :=
  C2_cursor_window [⟨1, "A", 0, 60⟩, ⟨2, "B", 0, 60⟩, ⟨3, "A", 0, 60⟩] 1 2
    (by decide) (by decide) (by decide) (by decide)

/-- Witness for C5: five rows, page size two, ⌈5/2⌉ pages. -/
theorem C5_witness :
    (get_trips_by_page
      [⟨1, "A", 0, 60⟩, ⟨2, "A", 0, 60⟩, ⟨3, "A", 0, 60⟩,
       ⟨4, "A", 0, 60⟩, ⟨5, "A", 0, 60⟩] 1 2 true).total_pages
      = ⌈(([⟨1, "A", 0, 60⟩, ⟨2, "A", 0, 60⟩, ⟨3, "A", 0, 60⟩,
       ⟨4, "A", 0, 60⟩, ⟨5, "A", 0, 60⟩] : List TaxiTrip).length : ℚ) / ((2 : Nat) : ℚ)⌉ :=
  C5_total_pages_ceil _ 1 2 (by decide)
